import Mathlib

/-! Shallow embedding of the studio repository's pose scene extension
(`packages/studio-base/src/panels/ThreeDeeRender/renderables/Poses.ts`),
the diagnostics summary panel
(`packages/studio-base/src/panels/diagnostics/DiagnosticSummary.tsx`)
and the chart worker bridge (`app/components/Chart/worker/ChartJSManager.ts`).

Object identity (JS reference equality) is modelled by numeric object ids
(`oid`) allocated from a counter; in-place mutation is functional update
that keeps the `oid`.  Machine numbers are modelled as real numbers.
Definitions come from the source; the few helpers whose files are not in
the staged sources are modelled from the spec and say so in their doc
comments. -/

namespace Studio

/-! ### Association lists: the JS `Map` (`renderables`) and plain objects
keyed by topic name (`config.topics`). -/

def lookupA {α β : Type} [DecidableEq α] : List (α × β) → α → Option β
  | [], _ => none
  | (k, v) :: t, a => if a = k then some v else lookupA t a

def setA {α β : Type} [DecidableEq α] : List (α × β) → α → β → List (α × β)
  | [], a, v => [(a, v)]
  | (k, w) :: t, a, v => if a = k then (k, v) :: t else (k, w) :: setA t a v

theorem lookupA_setA_self {α β : Type} [DecidableEq α] (l : List (α × β)) (a : α) (v : β) :
    lookupA (setA l a v) a = some v := by
  induction l with
  | nil => simp [setA, lookupA]
  | cons h t ih =>
    obtain ⟨k, w⟩ := h
    by_cases hk : a = k
    · simp [setA, lookupA, hk]
    · simp [setA, lookupA, hk, ih]

theorem keys_setA {α β : Type} [DecidableEq α] (l : List (α × β)) (a : α) (v : β) :
    (setA l a v).map Prod.fst = if a ∈ l.map Prod.fst then l.map Prod.fst
      else l.map Prod.fst ++ [a] := by
  induction l with
  | nil => simp [setA]
  | cons h t ih =>
    obtain ⟨k, w⟩ := h
    by_cases hk : a = k
    · simp [setA, hk]
    · by_cases hmem : a ∈ t.map Prod.fst
      · simp [setA, hk, ih, hmem]
      · simp [setA, hk, ih, hmem, Ne.symm hk]

theorem nodup_keys_setA {α β : Type} [DecidableEq α] (l : List (α × β)) (a : α) (v : β)
    (h : (l.map Prod.fst).Nodup) : ((setA l a v).map Prod.fst).Nodup := by
  rw [keys_setA]
  by_cases hmem : a ∈ l.map Prod.fst
  · simpa [hmem] using h
  · simp only [hmem, if_false]
    exact List.Nodup.append h (List.nodup_singleton a) (by simpa using hmem)

theorem count_keys_setA {α β : Type} [DecidableEq α] (l : List (α × β)) (a : α) (v : β)
    (h : (l.map Prod.fst).Nodup) : ((setA l a v).map Prod.fst).count a = 1 := by
  rw [keys_setA]
  by_cases hmem : a ∈ l.map Prod.fst
  · simpa [hmem] using List.count_eq_one_of_mem h hmem
  · simp [hmem, List.count_eq_zero_of_not_mem hmem]

/-! ### ROS-flavoured message types (`ros.ts`, `transforms.ts`) -/

structure Time where
  sec : ℕ
  nsec : ℕ

def TIME_ZERO : Time := ⟨0, 0⟩

/-- `toNanoSec` of `@foxglove/rostime`: seconds and nanoseconds to one
nanosecond count. -/
def toNanoSec (t : Time) : ℕ := t.sec * 1000000000 + t.nsec

structure Vector3 where
  x : ℝ
  y : ℝ
  z : ℝ

structure Quaternion where
  x : ℝ
  y : ℝ
  z : ℝ
  w : ℝ

structure Pose where
  position : Vector3
  orientation : Quaternion

structure Header where
  frame_id : String
  stamp : Time

structure PoseStamped where
  header : Header
  pose : Pose

structure PoseWithCovariance where
  pose : Pose
  covariance : List ℝ

structure PoseWithCovarianceStamped where
  header : Header
  pose : PoseWithCovariance

/-- The union type `PoseStamped | PoseWithCovarianceStamped`; the source's
`"covariance" in poseMessage.pose` test is the constructor discrimination. -/
inductive PoseMessage
  | plain (p : PoseStamped)
  | withCov (p : PoseWithCovarianceStamped)

def PoseMessage.header : PoseMessage → Header
  | .plain p => p.header
  | .withCov p => p.header

inductive MarkerType
  | arrow
  | sphere

inductive MarkerAction
  | add

/-- Modelled from the spec: `makePose` of `transforms.ts` is not among the
staged sources; the spec's "identity-like defaults" is the zero translation
with the identity quaternion. -/
def makePose : Pose := ⟨⟨0, 0, 0⟩, ⟨0, 0, 0, 1⟩⟩

/-- The marker value synthesized by `createArrowMarker` / `createSphereMarker`.
`colorStr` keeps the CSS color string itself: `stringToRgba` of `color.ts` is
not among the staged sources and no claim depends on the parsed channels. -/
structure Marker where
  header : Header
  ns : String
  id : ℕ
  type : MarkerType
  action : MarkerAction
  pose : Pose
  scale : Vector3
  colorStr : String
  lifetime : Time
  frame_locked : Bool
  points : List Vector3
  colors : List String
  text : String
  mesh_resource : String
  mesh_use_embedded_materials : Bool

/-! ### Settings (`LayerSettingsPose` and its `Partial`) -/

structure LayerSettingsPose where
  visible : Bool
  scale : ℝ × ℝ × ℝ
  color : String
  showCovariance : Bool
  covarianceColor : String

/-- `Partial<LayerSettingsPose>`: every field possibly absent. -/
structure LayerSettingsPoseOpt where
  visible : Option Bool := none
  scale : Option (ℝ × ℝ × ℝ) := none
  color : Option String := none
  showCovariance : Option Bool := none
  covarianceColor : Option String := none

noncomputable def DEFAULT_SCALE : ℝ × ℝ × ℝ := (1, 0.15, 0.15)

/-- `rgbaToCssString(DEFAULT_COLOR)`; `color.ts` is not among the staged
sources, the exact text of the string is immaterial to every claim. -/
def DEFAULT_COLOR_STR : String := "rgba(124, 107, 255, 1)"

/-- `rgbaToCssString(DEFAULT_COVARIANCE_COLOR)`, see `DEFAULT_COLOR_STR`. -/
def DEFAULT_COVARIANCE_COLOR_STR : String := "rgba(198, 107, 255, 0.25)"

noncomputable def DEFAULT_SETTINGS : LayerSettingsPose :=
  { visible := true
    scale := DEFAULT_SCALE
    color := DEFAULT_COLOR_STR
    showCovariance := true
    covarianceColor := DEFAULT_COVARIANCE_COLOR_STR }

/-- The JS spread `{ ...base, ...o }` of a full settings object with a
partial override: a field present in `o` wins, an absent one falls back. -/
def mergeSettings (base : LayerSettingsPose) (o : LayerSettingsPoseOpt) : LayerSettingsPose :=
  { visible := o.visible.getD base.visible
    scale := o.scale.getD base.scale
    color := o.color.getD base.color
    showCovariance := o.showCovariance.getD base.showCovariance
    covarianceColor := o.covarianceColor.getD base.covarianceColor }

/-- The JS spread `{ ...o1, ...o2 }` of two partial overrides. -/
def mergeOverrides (o1 o2 : LayerSettingsPoseOpt) : LayerSettingsPoseOpt :=
  { visible := o2.visible.orElse fun _ => o1.visible
    scale := o2.scale.orElse fun _ => o1.scale
    color := o2.color.orElse fun _ => o1.color
    showCovariance := o2.showCovariance.orElse fun _ => o1.showCovariance
    covarianceColor := o2.covarianceColor.orElse fun _ => o1.covarianceColor }

/-! ### Message normalization.  `normalizePoseStamped`,
`normalizePoseWithCovariance` and `normalizePoseWithCovarianceStamped` are
in the staged `Poses.ts`; the leaf normalizers they call live in
`normalizeMessages.ts`, which is not among the staged sources, and are
modelled from the spec. -/

structure HeaderOpt where
  frame_id : Option String := none
  stamp : Option Time := none

structure PoseOpt where
  position : Option Vector3 := none
  orientation : Option Quaternion := none

structure PoseWithCovarianceOpt where
  pose : Option PoseOpt := none
  covariance : Option (List ℝ) := none

structure PoseStampedOpt where
  header : Option HeaderOpt := none
  pose : Option PoseOpt := none

structure PoseWithCovarianceStampedOpt where
  header : Option HeaderOpt := none
  pose : Option PoseWithCovarianceOpt := none

/-- Modelled from the spec: `normalizeHeader` of `normalizeMessages.ts` is
not among the staged sources; an absent header or field degrades to the
empty frame id and the zero time. -/
def normalizeHeader : Option HeaderOpt → Header
  | none => ⟨"", TIME_ZERO⟩
  | some h => ⟨h.frame_id.getD "", h.stamp.getD TIME_ZERO⟩

/-- Modelled from the spec: `normalizePose` of `normalizeMessages.ts` is not
among the staged sources; an absent pose or field degrades to the zero
vector and the identity-like quaternion. -/
def normalizePose : Option PoseOpt → Pose
  | none => ⟨⟨0, 0, 0⟩, ⟨0, 0, 0, 1⟩⟩
  | some p => ⟨p.position.getD ⟨0, 0, 0⟩, p.orientation.getD ⟨0, 0, 0, 1⟩⟩

/-- Modelled from the spec: `normalizeMatrix6` of `normalizeMessages.ts` is
not among the staged sources; anything that is not a length-36 matrix
degrades to the zero covariance matrix of fixed size 36. -/
def normalizeMatrix6 : Option (List ℝ) → List ℝ
  | none => List.replicate 36 0
  | some l => if l.length = 36 then l else List.replicate 36 0

def normalizePoseStamped (p : PoseStampedOpt) : PoseStamped :=
  { header := normalizeHeader p.header, pose := normalizePose p.pose }

def normalizePoseWithCovariance (p : Option PoseWithCovarianceOpt) : PoseWithCovariance :=
  { pose := normalizePose (p.bind fun q => q.pose)
    covariance := normalizeMatrix6 (p.bind fun q => q.covariance) }

def normalizePoseWithCovarianceStamped (m : PoseWithCovarianceStampedOpt) :
    PoseWithCovarianceStamped :=
  { header := normalizeHeader m.header, pose := normalizePoseWithCovariance m.pose }

/-! ### Geometry synthesis (`createArrowMarker`, `createSphereMarker`) -/

def createArrowMarker (m : PoseMessage) (s : LayerSettingsPose) : Marker :=
  { header := m.header
    ns := ""
    id := 0
    type := .arrow
    action := .add
    pose := makePose
    scale := ⟨s.scale.1, s.scale.2.1, s.scale.2.2⟩
    colorStr := s.color
    lifetime := TIME_ZERO
    frame_locked := true
    points := []
    colors := []
    text := ""
    mesh_resource := ""
    mesh_use_embedded_materials := false }

/-- `createSphereMarker`: the sphere scale is the elementwise square root of
the covariance diagonal at the row-major offsets 0, 7 and 14.  The declared
return type is `Marker | undefined` although the body always returns a
marker; the option mirrors the declared type and the caller's truthiness
test. -/
noncomputable def createSphereMarker (m : PoseWithCovarianceStamped)
    (s : LayerSettingsPose) : Option Marker :=
  let K := m.pose.covariance
  some
    { header := m.header
      ns := ""
      id := 1
      type := .sphere
      action := .add
      pose := makePose
      scale := ⟨Real.sqrt (K.getD 0 0), Real.sqrt (K.getD 7 0), Real.sqrt (K.getD 14 0)⟩
      colorStr := s.covarianceColor
      lifetime := TIME_ZERO
      frame_locked := true
      points := []
      colors := []
      text := ""
      mesh_resource := ""
      mesh_use_embedded_materials := false }

/-! ### The `Poses` scene extension as a state machine.  `addPose`,
`_updatePoseRenderable` and `handleSettingsAction` are in the staged
`Poses.ts`; JS references become numeric object ids, in-place mutation a
functional update that keeps the id. -/

/-- The `RenderableArrow` owned by a pose renderable: its object identity
and the marker it was last updated with. -/
structure ArrowObj where
  oid : ℕ
  marker : Marker

/-- The `RenderableSphere` owned by a pose renderable: object identity,
last marker and the `visible` flag the update toggles. -/
structure SphereObj where
  oid : ℕ
  marker : Marker
  visible : Bool

/-- The `PoseRenderable` with its `userData` fields. -/
structure PoseRenderable where
  oid : ℕ
  receiveTime : ℕ
  messageTime : ℕ
  frameId : String
  pose : Pose
  settings : LayerSettingsPose
  topic : String
  poseMessage : PoseMessage
  arrow : ArrowObj
  sphere : Option SphereObj

/-- A value a settings edit can carry. -/
inductive SettingsValue
  | bv (v : Bool)
  | sv (v : String)
  | v3 (v : ℝ × ℝ × ℝ)

/-- The renderer's persisted panel config: the per-topic saved partial
settings, plus whatever other paths `saveSetting` was handed (lodash
`set` writes at any path). -/
structure RendererConfig where
  topics : List (String × LayerSettingsPoseOpt)
  extra : List (List String × SettingsValue)

/-- The mutable state owned by one `Poses` scene extension instance. -/
structure PosesState where
  nextId : ℕ
  renderables : List (String × PoseRenderable)
  config : RendererConfig

/-- Writing one named field of a saved partial settings object; a field
name or value kind outside the settings shape leaves it unchanged. -/
def setField (p : LayerSettingsPoseOpt) (f : String) (v : SettingsValue) :
    LayerSettingsPoseOpt :=
  if f = "visible" then
    match v with
    | .bv b => { p with visible := some b }
    | _ => p
  else if f = "scale" then
    match v with
    | .v3 t => { p with scale := some t }
    | _ => p
  else if f = "color" then
    match v with
    | .sv s => { p with color := some s }
    | _ => p
  else if f = "showCovariance" then
    match v with
    | .bv b => { p with showCovariance := some b }
    | _ => p
  else if f = "covarianceColor" then
    match v with
    | .sv s => { p with covarianceColor := some s }
    | _ => p
  else p

/-- Modelled from the spec: `SceneExtension.saveSetting` is not among the
staged sources; per the spec it persists the edit at the hierarchical
path into the panel config (a `["topics", topic, field]` path lands in the
per-topic saved settings, any other path elsewhere in the config). -/
def saveSetting (path : List String) (v : SettingsValue) (c : RendererConfig) :
    RendererConfig :=
  match path with
  | [a, t, f] =>
      if a = "topics" then
        { c with topics := setA c.topics t (setField ((lookupA c.topics t).getD {}) f v) }
      else { c with extra := setA c.extra path v }
  | _ => { c with extra := setA c.extra path v }

/-- `Poses._updatePoseRenderable`: stores receive time, message time, frame
id and message, re-derives the arrow marker, and for a covariance message
re-derives the sphere (lazily created on first need, identity kept,
`visible` toggled from `showCovariance`).  `fresh` is the id allocator. -/
noncomputable def updatePoseRenderable (r : PoseRenderable) (m : PoseMessage)
    (rt : ℕ) (fresh : ℕ) : PoseRenderable × ℕ :=
  let r1 : PoseRenderable :=
    { r with receiveTime := rt, messageTime := toNanoSec m.header.stamp,
             frameId := m.header.frame_id, poseMessage := m }
  let r2 : PoseRenderable :=
    { r1 with arrow := { r1.arrow with marker := createArrowMarker m r1.settings } }
  match m with
  | .withCov pm =>
    let r3 : PoseRenderable := { r2 with pose := pm.pose.pose }
    match createSphereMarker pm r3.settings with
    | some sm =>
      match r3.sphere with
      | some sp =>
          let sp1 : SphereObj := { sp with visible := r3.settings.showCovariance, marker := sm }
          ({ r3 with sphere := some sp1 }, fresh)
      | none =>
          let sp1 : SphereObj := ⟨fresh, sm, r3.settings.showCovariance⟩
          ({ r3 with sphere := some sp1 }, fresh + 1)
    | none =>
      match r3.sphere with
      | some sp =>
          let sp1 : SphereObj := { sp with visible := false }
          ({ r3 with sphere := some sp1 }, fresh)
      | none => (r3, fresh)
  | .plain pm => ({ r2 with pose := pm.pose }, fresh)

/-- `Poses.addPose`: look the topic up; on a miss build a renderable from
the defaults merged with the saved user settings, an arrow and, for a
covariance message, a sphere; either way run `_updatePoseRenderable`. -/
noncomputable def addPose (t : String) (m : PoseMessage) (rt : ℕ) (s : PosesState) :
    PosesState :=
  match lookupA s.renderables t with
  | some r =>
      let pr := updatePoseRenderable r m rt s.nextId
      { s with renderables := setA s.renderables t pr.1, nextId := pr.2 }
  | none =>
      let effSettings := mergeSettings DEFAULT_SETTINGS ((lookupA s.config.topics t).getD {})
      let initPose : Pose :=
        match m with
        | .withCov pm => pm.pose.pose
        | .plain pm => pm.pose
      let base : PoseRenderable :=
        { oid := s.nextId
          receiveTime := rt
          messageTime := toNanoSec m.header.stamp
          frameId := m.header.frame_id
          pose := initPose
          settings := effSettings
          topic := t
          poseMessage := m
          arrow := ⟨s.nextId + 1, createArrowMarker m effSettings⟩
          sphere := none }
      let seeded : PoseRenderable × ℕ :=
        match m with
        | .withCov pm =>
          match createSphereMarker pm effSettings with
          | some sm =>
              ({ base with sphere := some ⟨s.nextId + 2, sm, effSettings.showCovariance⟩ },
                s.nextId + 3)
          | none => (base, s.nextId + 2)
        | .plain _ => (base, s.nextId + 2)
      let pr := updatePoseRenderable seeded.1 m rt seeded.2
      { s with renderables := setA s.renderables t pr.1, nextId := pr.2 }

/-- A settings tree edit action (`SettingsTreeAction` with an update
payload; `action` is the action kind string). -/
structure SettingsAction where
  action : String
  path : List String
  value : SettingsValue

/-- `Poses.handleSettingsAction`: ignore anything that is not an `update`
with a length-3 path; otherwise persist the edit and, when a renderable
exists for `path[1]`, merge the saved settings over its settings and rerun
`_updatePoseRenderable` with its stored message and receive time. -/
noncomputable def handleSettingsAction (a : SettingsAction) (s : PosesState) : PosesState :=
  if a.action = "update" ∧ a.path.length = 3 then
    let c := saveSetting a.path a.value s.config
    let topicName := a.path.getD 1 ""
    match lookupA s.renderables topicName with
    | none => { s with config := c }
    | some r =>
        let r1 : PoseRenderable :=
          { r with settings := mergeSettings r.settings ((lookupA c.topics topicName).getD {}) }
        let pr := updatePoseRenderable r1 r1.poseMessage r1.receiveTime s.nextId
        { s with config := c, renderables := setA s.renderables topicName pr.1,
                 nextId := pr.2 }
  else s

/-! ### Diagnostics summary (`DiagnosticSummary.tsx`).  The list the panel
renders is computed here as in the `summary` memo; the helpers it imports
from `diagnostics/util.ts` and `util/toggle.ts` are not among the staged
sources and are modelled from the spec. -/

/-- What `pinnedIds.split("|")` extracts of a pinned entity id: the
hardware id and name components (the leading component is discarded by the
source). -/
structure DiagnosticId where
  hardwareId : String
  name : String
  deriving DecidableEq

structure DiagnosticStatus where
  level : ℕ
  hardware_id : String
  name : String
  message : String
  deriving DecidableEq

structure DiagnosticInfo where
  status : DiagnosticStatus
  displayName : String
  id : DiagnosticId
  deriving DecidableEq

/-- The buffer `useDiagnostics` returns: hardware id → name → latest info. -/
def DiagnosticsById := List (String × List (String × DiagnosticInfo))

/-- Every info in the buffer, in buffer order. -/
def allInfos (d : DiagnosticsById) : List DiagnosticInfo :=
  ((d.map Prod.snd).flatten).map Prod.snd

def strLtb (a b : String) : Bool := decide (a < b)

def insertByName (x : DiagnosticInfo) : List DiagnosticInfo → List DiagnosticInfo
  | [] => [x]
  | y :: t => if strLtb y.displayName x.displayName then y :: insertByName x t
              else x :: y :: t

/-- Alphabetical sort by display name (deterministic tie-breaking). -/
def sortByDisplayName (l : List DiagnosticInfo) : List DiagnosticInfo :=
  l.foldr insertByName []

def lowerChars (s : String) : List Char := s.data.map Char.toLower

def charsStartWith : List Char → List Char → Bool
  | _, [] => true
  | [], _ :: _ => false
  | a :: as, b :: bs => a = b && charsStartWith as bs

def charsContain (hay pat : List Char) : Bool :=
  match hay with
  | [] => pat.isEmpty
  | _ :: t => charsStartWith hay pat || charsContain t pat

/-- Case-insensitive hardware id substring filter; an empty filter passes
everything. -/
def matchesHardwareIdFilter (filt hw : String) : Bool :=
  filt.isEmpty || charsContain (lowerChars hw) (lowerChars filt)

/-- Modelled from the spec: `filterAndSortDiagnostics` of
`diagnostics/util.ts` is not among the staged sources; per the spec it
drops pinned entities, applies the case-insensitive hardware id filter and
sorts the rest alphabetically by display name. -/
def filterAndSortDiagnostics (nodes : List DiagnosticInfo) (filt : String)
    (pinned : List DiagnosticId) : List DiagnosticInfo :=
  sortByDisplayName
    ((nodes.filter fun i => !decide (i.id ∈ pinned)).filter
      fun i => matchesHardwareIdFilter filt i.status.hardware_id)

/-- Modelled from the spec: `getDiagnosticsByLevel` of
`diagnostics/util.ts` is not among the staged sources; it groups the
buffer's entities by severity level. -/
def byLevel (d : DiagnosticsById) (l : ℕ) : List DiagnosticInfo :=
  (allInfos d).filter fun i => decide (i.status.level = l)

def insertDescNat (x : ℕ) : List ℕ → List ℕ
  | [] => [x]
  | y :: t => if x ≤ y then y :: insertDescNat x t else x :: y :: t

/-- The levels present in the buffer, descending
(`Array.from(nodesByLevel.keys()).sort().reverse()`; the JS string sort
agrees with the numeric order on the single-digit level codes). -/
def levelsDesc (d : DiagnosticsById) : List ℕ :=
  (((allInfos d).map fun i => i.status.level).dedup).foldr insertDescNat []

structure DiagnosticSummaryConfig where
  minLevel : ℕ
  pinnedIds : List DiagnosticId
  hardwareIdFilter : String
  sortByLevel : Bool

/-- The `pinnedNodes` of the `summary` memo: each pinned id looked up in
the buffer, misses dropped (`filterMap` + `compact`), in pin order. -/
def pinnedInfos (d : DiagnosticsById) (ids : List DiagnosticId) : List DiagnosticInfo :=
  ids.filterMap fun pid => (lookupA d pid.hardwareId).bind fun m => lookupA m pid.name

/-- The unpinned remainder of the `summary` memo: per level descending when
`sortByLevel`, one unified pass otherwise. -/
def unpinnedSorted (d : DiagnosticsById) (cfg : DiagnosticSummaryConfig) :
    List DiagnosticInfo :=
  if cfg.sortByLevel then
    ((levelsDesc d).map fun l =>
      filterAndSortDiagnostics (byLevel d l) cfg.hardwareIdFilter cfg.pinnedIds).flatten
  else
    filterAndSortDiagnostics (allInfos d) cfg.hardwareIdFilter cfg.pinnedIds

/-- The `nodes` list the `summary` memo hands to the row renderer: pinned
first, then the sorted remainder, the whole concatenation filtered by the
minimum severity. -/
def renderedNodes (d : DiagnosticsById) (cfg : DiagnosticSummaryConfig) :
    List DiagnosticInfo :=
  (pinnedInfos d cfg.pinnedIds ++ unpinnedSorted d cfg).filter
    fun i => decide (cfg.minLevel ≤ i.status.level)

/-- Modelled from the spec: `toggle` of `util/toggle.ts` (used by
`togglePinned`) is not among the staged sources; per the spec unpinning
removes the entity and re-pinning appends it at the end. -/
def togglePin (l : List DiagnosticId) (x : DiagnosticId) : List DiagnosticId :=
  if x ∈ l then l.filter fun y => decide (y ≠ x) else l ++ [x]

/-! ### Chart worker bridge (`ChartJSManager.ts`). -/

/-- One axis entry of the `scales` snapshot every bridge operation returns;
a bound may be absent (`NaN`/`undefined` is not an error state). -/
structure RpcScaleBounds where
  left : Option ℝ
  right : Option ℝ
  minB : Option ℝ
  maxB : Option ℝ

def RpcScales := List (String × RpcScaleBounds)

/-- Modelled from the spec: the chart the execution context owns, as the
bridge dispatcher sees it (the host-side request/response layer that owns
the `ChartJSManager` instances is not among the staged sources). -/
structure ChartModel where
  scales : RpcScales

/-- Modelled from the spec: the bridge execution context; `none` is a
context not yet constructed or already destroyed. -/
def ChartBridge := Option ChartModel

/-- Modelled from the spec: `construct` puts a live chart behind the
bridge. -/
def bridgeConstruct (c : ChartModel) (_b : ChartBridge) : ChartBridge := some c

/-- Modelled from the spec: `destroy()` tears the owned chart down; the
bridge is unavailable afterwards. -/
def bridgeDestroy (_b : ChartBridge) : ChartBridge := none

/-- Modelled from the spec: one interactive operation (wheel, mouse, pan,
update), whose effect on a live chart is `f`; every operation answers with
the resulting scale snapshot, and against an unavailable bridge it is a
no-op answering the empty snapshot instead of throwing. -/
def bridgeOp (f : ChartModel → ChartModel) : ChartBridge → RpcScales × ChartBridge
  | none => ([], none)
  | some c => ((f c).scales, some (f c))

/-- The datalabel click context the datalabels plugin hands the listener:
the dataset's data and the index clicked. -/
structure DatalabelCtx (α : Type) where
  data : List α
  dataIndex : ℕ

/-- The state `ChartJSManager` keeps for datalabel clicks. -/
structure ChartManagerState (α : Type) where
  lastDatalabelClickContext : Option (DatalabelCtx α)

/-- The `click` listener `addFunctionsToConfig` installs: it stores the
clicked context. -/
def datalabelClick {α : Type} (c : DatalabelCtx α) (m : ChartManagerState α) :
    ChartManagerState α :=
  { m with lastDatalabelClickContext := some c }

/-- `ChartJSManager.getDatalabelAtEvent`: `notifyPlugins("beforeEvent")`
first delivers the event to the plugins — when the event is a click on a
datalabel (`ev = some c`) the stored listener fires — then the stored
context is consumed: read, cleared, and its datum returned. -/
def getDatalabelAtEvent {α : Type} (ev : Option (DatalabelCtx α))
    (m : ChartManagerState α) : Option α × ChartManagerState α :=
  let m1 := match ev with
    | some c => datalabelClick c m
    | none => m
  (m1.lastDatalabelClickContext.bind fun c => c.data.get? c.dataIndex,
   { m1 with lastDatalabelClickContext := none })

/-! ### Helper lemmas -/

theorem getD_orElse {α : Type} (a b : Option α) (c : α) :
    (a.orElse fun _ => b).getD c = a.getD (b.getD c) := by
  cases a <;> simp [Option.orElse]

/-! ### The claims -/

/-- C4: for every defaults object and partial overrides, the effective
settings are the defaults with every field set in an override winning and
every unset field falling back to the default (never absent), and applying
two overrides sequentially equals the single spread
`\x7b...defaults, ...override1, ...override2\x7d`. -/
theorem c4_settings_merge (d : LayerSettingsPose) (o1 o2 : LayerSettingsPoseOpt) :
    mergeSettings (mergeSettings d o1) o2 = mergeSettings d (mergeOverrides o1 o2)
    ∧ mergeSettings d {} = d
    ∧ (o1.visible = none → (mergeSettings d o1).visible = d.visible)
    ∧ (∀ v, o1.visible = some v → (mergeSettings d o1).visible = v)
    ∧ (o1.scale = none → (mergeSettings d o1).scale = d.scale)
    ∧ (o1.color = none → (mergeSettings d o1).color = d.color)
    ∧ (o1.showCovariance = none → (mergeSettings d o1).showCovariance = d.showCovariance)
    ∧ (o1.covarianceColor = none → (mergeSettings d o1).covarianceColor = d.covarianceColor) := by
  refine ⟨?_, rfl, ?_, ?_, ?_, ?_, ?_, ?_⟩
  · simp [mergeSettings, mergeOverrides, getD_orElse]
  · intro h; simp [mergeSettings, h]
  · intro v hv; simp [mergeSettings, hv]
  · intro h; simp [mergeSettings, h]
  · intro h; simp [mergeSettings, h]
  · intro h; simp [mergeSettings, h]
  · intro h; simp [mergeSettings, h]

/-- C8: normalization of a possibly-partial pose-with-covariance message
never fails (it is a total function) and replaces every omitted field by
its zero-equivalent default, with a zero covariance matrix of fixed size
36 when the covariance field is absent; the covariance always has size
36. -/
theorem c8_normalize_defaults (p : PoseWithCovarianceStampedOpt) :
    (p.header = none → (normalizePoseWithCovarianceStamped p).header = ⟨"", TIME_ZERO⟩)
    ∧ ((p.pose.bind fun q => q.pose) = none →
        (normalizePoseWithCovarianceStamped p).pose.pose = ⟨⟨0, 0, 0⟩, ⟨0, 0, 0, 1⟩⟩)
    ∧ ((p.pose.bind fun q => q.covariance) = none →
        (normalizePoseWithCovarianceStamped p).pose.covariance = List.replicate 36 0)
    ∧ (normalizePoseWithCovarianceStamped p).pose.covariance.length = 36 := by
  refine ⟨?_, ?_, ?_, ?_⟩
  · intro h
    simp [normalizePoseWithCovarianceStamped, normalizeHeader, h]
  · intro h
    simp [normalizePoseWithCovarianceStamped, normalizePoseWithCovariance, normalizePose, h]
  · intro h
    simp [normalizePoseWithCovarianceStamped, normalizePoseWithCovariance, normalizeMatrix6, h]
  · cases hc : p.pose.bind fun q => q.covariance with
    | none =>
      simp [normalizePoseWithCovarianceStamped, normalizePoseWithCovariance,
        normalizeMatrix6, hc]
    | some l =>
      by_cases hl : l.length = 36 <;>
        simp [normalizePoseWithCovarianceStamped, normalizePoseWithCovariance,
          normalizeMatrix6, hc, hl]

/-- C9: every chart-bridge operation (wheel, mouse, pan, update — any
live-chart effect `f`) invoked after `destroy()` or before the chart
instance exists is a no-op answering the empty scale snapshot, and does
not throw (it is a total function). -/
theorem c9_bridge_unavailable (f : ChartModel → ChartModel) (b : ChartBridge) :
    bridgeOp f (bridgeDestroy b) = ([], none)
    ∧ bridgeOp f (none : ChartBridge) = ([], none) := by
  exact ⟨rfl, rfl⟩

/-- C10: `getDatalabelAtEvent` consumes the stored datalabel click context:
a call whose event is the most recent datalabel click returns that datum,
and an immediately following call with no intervening click returns
`undefined`, because the stored context is cleared on each call. -/
theorem c10_datalabel_consumed {α : Type} (m : ChartManagerState α)
    (ev : Option (DatalabelCtx α)) :
    (∀ c, (getDatalabelAtEvent (some c) m).1 = c.data.get? c.dataIndex)
    ∧ (getDatalabelAtEvent none (getDatalabelAtEvent ev m).2).1 = none := by
  constructor
  · intro c
    rfl
  · cases ev <;> rfl

/-- The spec's end-to-end covariance example: diagonal entries 0.04, 0.09
and 0.01 at the row-major offsets 0, 7 and 14, everything else zero. -/
noncomputable def exampleCovariance : List ℝ :=
  [0.04, 0, 0, 0, 0, 0, 0,
   0.09, 0, 0, 0, 0, 0, 0,
   0.01, 0, 0, 0, 0, 0, 0, 0, 0, 0, 0, 0, 0, 0, 0, 0, 0, 0, 0, 0, 0, 0]

/-- A partial incoming message carrying only the example covariance. -/
noncomputable def examplePoseMsgOpt : PoseWithCovarianceStampedOpt :=
  { header := none, pose := some { pose := none, covariance := some exampleCovariance } }

/-- C1: the sphere marker synthesized for a `PoseWithCovarianceStamped`
message has scale `(sqrt covariance[0], sqrt covariance[7],
sqrt covariance[14])`; in particular the normalized message with diagonal
entries 0.04, 0.09, 0.01 at offsets 0, 7, 14 yields sphere scale
`(0.2, 0.3, 0.1)`. -/
theorem c1_sphere_scale :
    (∀ (m : PoseWithCovarianceStamped) (s : LayerSettingsPose),
        (createSphereMarker m s).map Marker.scale =
          some ⟨Real.sqrt (m.pose.covariance.getD 0 0),
                Real.sqrt (m.pose.covariance.getD 7 0),
                Real.sqrt (m.pose.covariance.getD 14 0)⟩)
    ∧ (createSphereMarker (normalizePoseWithCovarianceStamped examplePoseMsgOpt)
        DEFAULT_SETTINGS).map Marker.scale = some ⟨0.2, 0.3, 0.1⟩ := by
  constructor
  · intro m s
    rfl
  · have hlen : exampleCovariance.length = 36 := by
      simp [exampleCovariance]
    have hcov : (normalizePoseWithCovarianceStamped examplePoseMsgOpt).pose.covariance
        = exampleCovariance := by
      simp [normalizePoseWithCovarianceStamped, normalizePoseWithCovariance,
        examplePoseMsgOpt, normalizeMatrix6, hlen]
    have e0 : exampleCovariance.getD 0 0 = (0.04 : ℝ) := rfl
    have e7 : exampleCovariance.getD 7 0 = (0.09 : ℝ) := rfl
    have e14 : exampleCovariance.getD 14 0 = (0.01 : ℝ) := rfl
    have h04 : Real.sqrt 0.04 = (0.2 : ℝ) := by
      rw [show (0.04 : ℝ) = 0.2 ^ 2 by norm_num]
      exact Real.sqrt_sq (by norm_num)
    have h09 : Real.sqrt 0.09 = (0.3 : ℝ) := by
      rw [show (0.09 : ℝ) = 0.3 ^ 2 by norm_num]
      exact Real.sqrt_sq (by norm_num)
    have h01 : Real.sqrt 0.01 = (0.1 : ℝ) := by
      rw [show (0.01 : ℝ) = 0.1 ^ 2 by norm_num]
      exact Real.sqrt_sq (by norm_num)
    show some (⟨Real.sqrt ((normalizePoseWithCovarianceStamped examplePoseMsgOpt).pose.covariance.getD 0 0),
        Real.sqrt ((normalizePoseWithCovarianceStamped examplePoseMsgOpt).pose.covariance.getD 7 0),
        Real.sqrt ((normalizePoseWithCovarianceStamped examplePoseMsgOpt).pose.covariance.getD 14 0)⟩ : Vector3)
      = some ⟨0.2, 0.3, 0.1⟩
    rw [hcov, e0, e7, e14, h04, h09, h01]

/-- What `_updatePoseRenderable` keeps and what it stores: object identity
of the renderable and of its arrow, settings and topic are untouched;
message, receive time, message time and frame id are stored; the arrow
marker is re-derived from the message and the settings. -/
theorem updatePoseRenderable_spec (r : PoseRenderable) (m : PoseMessage) (rt fresh : ℕ) :
    (updatePoseRenderable r m rt fresh).1.oid = r.oid
    ∧ (updatePoseRenderable r m rt fresh).1.arrow.oid = r.arrow.oid
    ∧ (updatePoseRenderable r m rt fresh).1.settings = r.settings
    ∧ (updatePoseRenderable r m rt fresh).1.topic = r.topic
    ∧ (updatePoseRenderable r m rt fresh).1.poseMessage = m
    ∧ (updatePoseRenderable r m rt fresh).1.receiveTime = rt
    ∧ (updatePoseRenderable r m rt fresh).1.messageTime = toNanoSec m.header.stamp
    ∧ (updatePoseRenderable r m rt fresh).1.frameId = m.header.frame_id
    ∧ (updatePoseRenderable r m rt fresh).1.arrow.marker = createArrowMarker m r.settings := by
  obtain ⟨oid, rcv, mt, fid, ps, st, tp, pmsg, ar, sph⟩ := r
  cases m with
  | plain pm => exact ⟨rfl, rfl, rfl, rfl, rfl, rfl, rfl, rfl, rfl⟩
  | withCov pm =>
    cases sph with
    | none => exact ⟨rfl, rfl, rfl, rfl, rfl, rfl, rfl, rfl, rfl⟩
    | some sp => exact ⟨rfl, rfl, rfl, rfl, rfl, rfl, rfl, rfl, rfl⟩

/-- For a covariance message, `_updatePoseRenderable` on a renderable that
already owns a sphere keeps that sphere's identity and only re-derives its
marker and visibility, the latter set to the `showCovariance` setting. -/
theorem updatePoseRenderable_sphere (r : PoseRenderable) (m : PoseMessage)
    (pm : PoseWithCovarianceStamped) (rt fresh : ℕ) (sp : SphereObj)
    (hm : m = .withCov pm) (hs : r.sphere = some sp) :
    ∃ sp1, (updatePoseRenderable r m rt fresh).1.sphere = some sp1
      ∧ sp1.oid = sp.oid ∧ sp1.visible = r.settings.showCovariance := by
  subst hm
  obtain ⟨oid, rcv, mt, fid, ps, st, tp, pmsg, ar, sph⟩ := r
  cases sph with
  | none => exact absurd hs (by simp)
  | some sp0 =>
    obtain rfl : sp0 = sp := by injection hs
    exact ⟨_, rfl, rfl, rfl⟩

theorem updatePoseRenderable_oid_map (r : PoseRenderable) (m : PoseMessage) (rt fresh : ℕ) :
    Option.map PoseRenderable.oid (some (updatePoseRenderable r m rt fresh).1) = some r.oid := by
  simp [(updatePoseRenderable_spec r m rt fresh).1]

/-- C2: for every topic, at most one renderable exists at any time (key
count after a message is exactly one, keys stay duplicate-free), the
renderable is created by the first message (fresh id `nextId`), and every
later message mutates the same object in place (the stored id is
unchanged). -/
theorem c2_renderable_identity (s : PosesState) (t : String) (m : PoseMessage) (rt : ℕ)
    (h : (s.renderables.map Prod.fst).Nodup) :
    ((addPose t m rt s).renderables.map Prod.fst).Nodup
    ∧ ((addPose t m rt s).renderables.map Prod.fst).count t = 1
    ∧ (lookupA (addPose t m rt s).renderables t).map PoseRenderable.oid =
        some (((lookupA s.renderables t).map PoseRenderable.oid).getD s.nextId) := by
  cases hlk : lookupA s.renderables t with
  | some r =>
    have hren : (addPose t m rt s).renderables =
        setA s.renderables t (updatePoseRenderable r m rt s.nextId).1 := by
      simp [addPose, hlk]
    refine ⟨?_, ?_, ?_⟩
    · rw [hren]; exact nodup_keys_setA _ _ _ h
    · rw [hren]; exact count_keys_setA _ _ _ h
    · rw [hren, lookupA_setA_self]
      simp [(updatePoseRenderable_spec r m rt s.nextId).1]
  | none =>
    cases m with
    | plain pm =>
      refine ⟨?_, ?_, ?_⟩ <;> simp only [addPose, hlk]
      · exact nodup_keys_setA _ _ _ h
      · exact count_keys_setA _ _ _ h
      · rw [lookupA_setA_self, updatePoseRenderable_oid_map]
        simp
    | withCov pm =>
      refine ⟨?_, ?_, ?_⟩ <;> simp only [addPose, hlk, createSphereMarker]
      · exact nodup_keys_setA _ _ _ h
      · exact count_keys_setA _ _ _ h
      · rw [lookupA_setA_self, updatePoseRenderable_oid_map]
        simp

/-- One `showCovariance` settings edit on a topic whose renderable owns a
sphere (its stored message carries covariance): the sphere keeps its
identity, its visibility flag becomes the new setting, and the stored
message survives. -/
theorem handleShowCovariance_step (s : PosesState) (t : String) (b : Bool)
    (r : PoseRenderable) (sp : SphereObj) (pm : PoseWithCovarianceStamped)
    (hr : lookupA s.renderables t = some r) (hsp : r.sphere = some sp)
    (hm : r.poseMessage = .withCov pm) :
    ∃ r1 sp1,
      lookupA (handleSettingsAction
          ⟨"update", ["topics", t, "showCovariance"], .bv b⟩ s).renderables t = some r1
      ∧ r1.sphere = some sp1 ∧ sp1.oid = sp.oid ∧ sp1.visible = b
      ∧ r1.poseMessage = .withCov pm ∧ r1.settings.showCovariance = b := by
  have hset : (mergeSettings r.settings
      ((lookupA (saveSetting ["topics", t, "showCovariance"] (.bv b) s.config).topics t).getD
        {})).showCovariance = b := by
    simp [saveSetting, setField, lookupA_setA_self, mergeSettings]
  simp [handleSettingsAction, hr]
  set M := mergeSettings r.settings
      ((lookupA (saveSetting ["topics", t, "showCovariance"] (SettingsValue.bv b)
        s.config).topics t).getD {}) with hM
  obtain ⟨sp1, h1, h2, h3⟩ :=
    updatePoseRenderable_sphere { r with settings := M } r.poseMessage pm
      r.receiveTime s.nextId sp hm hsp
  refine ⟨_, lookupA_setA_self _ _ _, sp1, h1, h2, ?_, ?_, ?_⟩
  · rw [h3]
    exact hset
  · rw [(updatePoseRenderable_spec _ _ _ _).2.2.2.2.1]
    exact hm
  · rw [(updatePoseRenderable_spec _ _ _ _).2.2.1]
    exact hset

/-- C3: once a renderable's sphere exists, turning `showCovariance` off
and back on leaves the sphere the same object (same identity, never
disposed or reallocated); only its visibility flag changes, equal to the
`showCovariance` setting after each of the two updates. -/
theorem c3_sphere_toggle (s : PosesState) (t : String) (r : PoseRenderable)
    (sp : SphereObj) (pm : PoseWithCovarianceStamped)
    (hr : lookupA s.renderables t = some r) (hsp : r.sphere = some sp)
    (hm : r.poseMessage = .withCov pm) :
    ∃ r1 sp1 r2 sp2,
      lookupA (handleSettingsAction
          ⟨"update", ["topics", t, "showCovariance"], .bv false⟩ s).renderables t = some r1
      ∧ r1.sphere = some sp1 ∧ sp1.oid = sp.oid ∧ sp1.visible = false
      ∧ lookupA (handleSettingsAction
          ⟨"update", ["topics", t, "showCovariance"], .bv true⟩
            (handleSettingsAction
              ⟨"update", ["topics", t, "showCovariance"], .bv false⟩ s)).renderables t
          = some r2
      ∧ r2.sphere = some sp2 ∧ sp2.oid = sp.oid ∧ sp2.visible = true := by
  obtain ⟨r1, sp1, hr1, hsp1, hoid1, hvis1, hm1, _⟩ :=
    handleShowCovariance_step s t false r sp pm hr hsp hm
  obtain ⟨r2, sp2, hr2, hsp2, hoid2, hvis2, _, _⟩ :=
    handleShowCovariance_step _ t true r1 sp1 pm hr1 hsp1 hm1
  exact ⟨r1, sp1, r2, sp2, hr1, hsp1, hoid1, hvis1, hr2, hsp2,
    hoid2.trans hoid1, hvis2⟩

/-- C7: a valid settings edit addressed to a topic with an existing
renderable re-derives the arrow geometry from the new effective settings
but leaves the stored message, message timestamp and receive time equal to
their values before the edit. -/
theorem c7_settings_edit_frame (s : PosesState) (t f : String) (v : SettingsValue)
    (r : PoseRenderable) (hr : lookupA s.renderables t = some r)
    (hmt : r.messageTime = toNanoSec r.poseMessage.header.stamp) :
    ∃ r1,
      lookupA (handleSettingsAction ⟨"update", ["topics", t, f], v⟩ s).renderables t = some r1
      ∧ r1.poseMessage = r.poseMessage
      ∧ r1.receiveTime = r.receiveTime
      ∧ r1.messageTime = r.messageTime
      ∧ r1.arrow.marker = createArrowMarker r.poseMessage r1.settings := by
  simp [handleSettingsAction, hr]
  refine ⟨_, lookupA_setA_self _ _ _, ?_, ?_, ?_, ?_⟩
  · exact (updatePoseRenderable_spec _ _ _ _).2.2.2.2.1
  · exact (updatePoseRenderable_spec _ _ _ _).2.2.2.2.2.1
  · rw [(updatePoseRenderable_spec _ _ _ _).2.2.2.2.2.2.1]
    exact hmt.symm
  · rw [(updatePoseRenderable_spec _ _ _ _).2.2.2.2.2.2.2.2,
      (updatePoseRenderable_spec _ _ _ _).2.2.1]

/-- The empty scene-extension state: no renderables, empty config. -/
def emptyPosesState : PosesState := ⟨0, [], ⟨[], []⟩⟩

/-- C6 counterexample: a length-3 `update` whose first segment is not
`"topics"` is still processed — the edit is persisted into the config, so
the handler did not "make no change at all". -/
theorem c6_counterexample :
    handleSettingsAction ⟨"update", ["layers", "/pose", "color"], .sv "red"⟩ emptyPosesState
      ≠ emptyPosesState := by
  intro h
  have h2 := congrArg (fun st => st.config.extra) h
  simp [handleSettingsAction, saveSetting, setA, lookupA, emptyPosesState] at h2

/-- C6 (amended): the handler ignores a settings action (no persistence,
no renderable change, state unchanged) when the action is not an update or
the path does not have length 3; the segment contents themselves are not
validated. -/
theorem c6_invalid_path_ignored (a : SettingsAction) (s : PosesState)
    (h : a.action ≠ "update" ∨ a.path.length ≠ 3) :
    handleSettingsAction a s = s := by
  have hc : ¬(a.action = "update" ∧ a.path.length = 3) := by
    rcases h with h | h <;> simp [h]
  simp [handleSettingsAction, hc]

theorem c6_invalid_path_ignored_witness :
    handleSettingsAction ⟨"update", ["topics", "/pose"], .bv true⟩ emptyPosesState
      = emptyPosesState :=
  c6_invalid_path_ignored ⟨"update", ["topics", "/pose"], .bv true⟩ emptyPosesState
    (Or.inr (by simp))

/-! ### Concrete witnesses for the pose claims -/

def examplePlainMsg : PoseMessage := .plain ⟨⟨"base", ⟨1, 2⟩⟩, makePose⟩

theorem c2_renderable_identity_witness :
    ((addPose "/pose" examplePlainMsg 5 emptyPosesState).renderables.map Prod.fst).Nodup
    ∧ ((addPose "/pose" examplePlainMsg 5 emptyPosesState).renderables.map
        Prod.fst).count "/pose" = 1
    ∧ (lookupA (addPose "/pose" examplePlainMsg 5 emptyPosesState).renderables
        "/pose").map PoseRenderable.oid =
      some (((lookupA emptyPosesState.renderables "/pose").map PoseRenderable.oid).getD
        emptyPosesState.nextId) :=
  c2_renderable_identity emptyPosesState "/pose" examplePlainMsg 5 (by simp [emptyPosesState])

noncomputable def exampleCovStamped : PoseWithCovarianceStamped :=
  ⟨⟨"map", ⟨1, 2⟩⟩, ⟨makePose, exampleCovariance⟩⟩

noncomputable def exampleArrowMarker : Marker :=
  createArrowMarker (.withCov exampleCovStamped) DEFAULT_SETTINGS

noncomputable def exampleSphere : SphereObj := ⟨2, exampleArrowMarker, true⟩

noncomputable def exampleRenderable : PoseRenderable :=
  { oid := 0
    receiveTime := 7
    messageTime := toNanoSec ⟨1, 2⟩
    frameId := "map"
    pose := makePose
    settings := DEFAULT_SETTINGS
    topic := "/pose"
    poseMessage := .withCov exampleCovStamped
    arrow := ⟨1, exampleArrowMarker⟩
    sphere := some exampleSphere }

noncomputable def exampleState : PosesState :=
  ⟨3, [("/pose", exampleRenderable)], ⟨[], []⟩⟩

theorem c3_sphere_toggle_witness :
    ∃ r1 sp1 r2 sp2,
      lookupA (handleSettingsAction
          ⟨"update", ["topics", "/pose", "showCovariance"], .bv false⟩
          exampleState).renderables "/pose" = some r1
      ∧ r1.sphere = some sp1 ∧ sp1.oid = exampleSphere.oid ∧ sp1.visible = false
      ∧ lookupA (handleSettingsAction
          ⟨"update", ["topics", "/pose", "showCovariance"], .bv true⟩
            (handleSettingsAction
              ⟨"update", ["topics", "/pose", "showCovariance"], .bv false⟩
              exampleState)).renderables "/pose" = some r2
      ∧ r2.sphere = some sp2 ∧ sp2.oid = exampleSphere.oid ∧ sp2.visible = true :=
  c3_sphere_toggle exampleState "/pose" exampleRenderable exampleSphere exampleCovStamped
    (by simp [exampleState, lookupA]) rfl rfl

theorem c7_settings_edit_frame_witness :
    ∃ r1,
      lookupA (handleSettingsAction ⟨"update", ["topics", "/pose", "color"], .sv "blue"⟩
        exampleState).renderables "/pose" = some r1
      ∧ r1.poseMessage = exampleRenderable.poseMessage
      ∧ r1.receiveTime = exampleRenderable.receiveTime
      ∧ r1.messageTime = exampleRenderable.messageTime
      ∧ r1.arrow.marker = createArrowMarker exampleRenderable.poseMessage r1.settings :=
  c7_settings_edit_frame exampleState "/pose" "color" (.sv "blue") exampleRenderable
    (by simp [exampleState, lookupA]) rfl

/-! ### Diagnostics lemmas and the C5 claim -/

theorem mem_insertByName {x y : DiagnosticInfo} {l : List DiagnosticInfo}
    (h : y ∈ insertByName x l) : y = x ∨ y ∈ l := by
  induction l with
  | nil => simpa [insertByName] using h
  | cons z t ih =>
    simp only [insertByName] at h
    by_cases hz : strLtb z.displayName x.displayName
    · rw [if_pos hz] at h
      rcases List.mem_cons.1 h with h | h
      · exact Or.inr (by simp [h])
      · rcases ih h with h | h
        · exact Or.inl h
        · exact Or.inr (List.mem_cons_of_mem _ h)
    · rw [if_neg hz] at h
      rcases List.mem_cons.1 h with h | h
      · exact Or.inl h
      · exact Or.inr h

theorem mem_sortByDisplayName {y : DiagnosticInfo} {l : List DiagnosticInfo}
    (h : y ∈ sortByDisplayName l) : y ∈ l := by
  induction l with
  | nil => simp [sortByDisplayName] at h
  | cons a t ih =>
    rcases mem_insertByName (by simpa [sortByDisplayName] using h) with h1 | h1
    · simp [h1]
    · exact List.mem_cons_of_mem _ (ih (by simpa [sortByDisplayName] using h1))

theorem mem_filterAndSort_not_pinned {i : DiagnosticInfo} {nodes : List DiagnosticInfo}
    {filt : String} {pinned : List DiagnosticId}
    (h : i ∈ filterAndSortDiagnostics nodes filt pinned) : i.id ∉ pinned := by
  have h1 := mem_sortByDisplayName (by simpa [filterAndSortDiagnostics] using h)
  have h2 := (List.mem_filter.1 h1).2
  simp at h2
  tauto

/-- C5 (amended): of the entities passing the minimum-severity filter, the
pinned ones render first, in pin order (pinned lookup distributes over the
pin list, so a re-pinned id's entity lands at the end of the pinned
block), regardless of the hardware-id filter and `sortByLevel`; the
unpinned remainder never contains a pinned entity; unpinning and
re-pinning appends the entity at the end of the pinned list.  Pinned
entities below the minimum severity are omitted from the output. -/
theorem c5_pinned_first (d : DiagnosticsById) (cfg : DiagnosticSummaryConfig) :
    renderedNodes d cfg =
      ((pinnedInfos d cfg.pinnedIds).filter fun i => decide (cfg.minLevel ≤ i.status.level))
        ++ ((unpinnedSorted d cfg).filter fun i => decide (cfg.minLevel ≤ i.status.level))
    ∧ (∀ i ∈ unpinnedSorted d cfg, i.id ∉ cfg.pinnedIds)
    ∧ (∀ ids1 ids2, pinnedInfos d (ids1 ++ ids2) =
        pinnedInfos d ids1 ++ pinnedInfos d ids2)
    ∧ (∀ (l : List DiagnosticId) (x : DiagnosticId), x ∈ l →
        togglePin (togglePin l x) x = (l.filter fun y => decide (y ≠ x)) ++ [x]) := by
  refine ⟨?_, ?_, ?_, ?_⟩
  · simp only [renderedNodes, List.filter_append]
  · intro i hi
    unfold unpinnedSorted at hi
    by_cases hs : cfg.sortByLevel = true
    · rw [if_pos hs] at hi
      rcases List.mem_flatten.1 hi with ⟨l', hl', hil⟩
      rcases List.mem_map.1 hl' with ⟨lev, _, rfl⟩
      exact mem_filterAndSort_not_pinned hil
    · rw [if_neg hs] at hi
      exact mem_filterAndSort_not_pinned hi
  · intro ids1 ids2
    simp [pinnedInfos, List.filterMap_append]
  · intro l x hx
    have h1 : togglePin l x = l.filter fun y => decide (y ≠ x) := by
      simp [togglePin, hx]
    have h2 : x ∉ l.filter fun y => decide (y ≠ x) := by
      simp [List.mem_filter]
    rw [h1]
    simp [togglePin, h2]

def exampleInfo : DiagnosticInfo :=
  { status := { level := 0, hardware_id := "hw", name := "node", message := "running" }
    displayName := "hw: node"
    id := ⟨"hw", "node"⟩ }

def exampleDiagnostics : DiagnosticsById := [("hw", [("node", exampleInfo)])]

def exampleSummaryConfig : DiagnosticSummaryConfig :=
  { minLevel := 2
    pinnedIds := [⟨"hw", "node"⟩]
    hardwareIdFilter := ""
    sortByLevel := true }

/-- C5 counterexample: with minimum severity `error` (2), a pinned entity
of level `ok` (0) that is present in the buffer does not appear in the
rendered list at all — the minimum-severity filter is applied to the
pinned block too, so pinned entities do not render "regardless of the
minimum-severity filter". -/
theorem c5_counterexample :
    pinnedInfos exampleDiagnostics exampleSummaryConfig.pinnedIds = [exampleInfo]
    ∧ renderedNodes exampleDiagnostics exampleSummaryConfig = [] := by
  constructor <;> rfl

end Studio
